import Mathlib

/-!
Verification development for the RastreadorDashboardBack backend.

The Python services are shallow-embedded as Lean functions:

* `services/data_aggregator.py` — raw device frames are JSON dictionaries, so a
  frame is modelled as a record of `Option`-valued fields (`none` = key absent);
  numeric JSON values are modelled as rationals (`ℚ`), strings as `String`.
  `validate_and_normalize_data`, `calculate_derived_data`, `process_esp_data`,
  `add_to_history` and `get_statistics` are translated field by field.
* `services/esp_communicator.py` — the communicator's mutable configuration and
  socket state become a record; network outcomes (whether a probe or a socket
  receive succeeds) are explicit parameters, since the embedding is
  deterministic.  The websocket listener loop is modelled as a state machine
  driven by the stream of connection-attempt outcomes.
* `services/websocket_manager.py` — the registry of observer channels is a list
  of opaque channel identifiers; a send failure is modelled by a predicate
  saying which channels fail.

Wall-clock reads (`time.time()`, `datetime.now()`) are passed in as an explicit
`Now` record.
-/

namespace Rastreador

/-- Clock and calendar values that the Python code reads from `time.time()` and
`datetime.now()`; passed explicitly to keep the embedding pure. -/
structure Now where
  ts : Int
  day : Int
  month : Int
  year : Int
  hour : Int
  minute : Int
  second : Int
  deriving DecidableEq, Repr

/-- The `pid_values` sub-dictionary of a frame.  Every key may be absent, which
is what `none` encodes. -/
structure PidDict where
  kp : Option ℚ
  ki : Option ℚ
  kd : Option ℚ
  p : Option ℚ
  i : Option ℚ
  d : Option ℚ
  error : Option ℚ
  output : Option ℚ
  deriving DecidableEq, Repr

/-- The `mpu` sub-dictionary of a frame. -/
structure MpuDict where
  lens_angle : Option ℚ
  deriving DecidableEq, Repr

/-- A telemetry frame / snapshot dictionary.  Raw frames from the device and
processed snapshots share this shape; a key that is absent from the Python
dictionary is `none`. -/
structure SnapDict where
  mode : Option String := none
  esp_clock : Option Int := none
  rtc_day : Option Int := none
  rtc_month : Option Int := none
  rtc_year : Option Int := none
  rtc_hour : Option Int := none
  rtc_minute : Option Int := none
  rtc_second : Option Int := none
  motor : Option ℚ := none
  sun_position : Option ℚ := none
  manual_setpoint : Option ℚ := none
  mpu : Option MpuDict := none
  pid_values : Option PidDict := none
  tracking_error : Option ℚ := none
  motor_percentage : Option ℚ := none
  motor_direction : Option String := none
  tracking_enabled : Option Bool := none
  manual_override : Option Bool := none
  safety_stop : Option Bool := none
  processed_timestamp : Option Int := none
  deriving DecidableEq, Repr

instance : Inhabited SnapDict := ⟨{}⟩

/-- Integer part of Python's banker's rounding (`round` rounds half to even). -/
def pyRoundInt (q : ℚ) : ℤ :=
  let f : ℤ := Int.floor q
  let r : ℚ := q - (f : ℚ)
  if r < 1/2 then f
  else if 1/2 < r then f + 1
  else if f % 2 = 0 then f else f + 1

/-- Python's `round(q, nd)` on rationals. -/
def pyRound (nd : ℕ) (q : ℚ) : ℚ :=
  ((pyRoundInt (q * 10 ^ nd) : ℚ)) / 10 ^ nd

/-- Python's `max(lo, min(hi, x))` clamp pattern used by the aggregator. -/
def clampQ (lo hi x : ℚ) : ℚ := max lo (min hi x)

/-- The full default `pid_values` dictionary substituted by
`validate_and_normalize_data` when the key is absent
(`data_aggregator.py` lines 143–148). -/
def defaultPid : PidDict :=
  { kp := some 0, ki := some 0, kd := some 0
    p := some 0, i := some 0, d := some 0
    error := some 0, output := some 0 }

/-- `DataAggregator.validate_and_normalize_data` (`data_aggregator.py`
lines 125–165): `setdefault` for the essential keys, lens-angle repair of the
`mpu` sub-dictionary, wholesale default of `pid_values` when absent, RTC
defaults from the wall clock, then the range clamps of lines 160–163. -/
def validate_and_normalize_data (now : Now) (data : SnapDict) : SnapDict :=
  let mpu0 : MpuDict :=
    match data.mpu with
    | none => { lens_angle := some 0 }
    | some m => { m with lens_angle := some (m.lens_angle.getD 0) }
  { data with
    mode := some (data.mode.getD "unknown")
    esp_clock := some (data.esp_clock.getD now.ts)
    motor := some (clampQ 0 255 (data.motor.getD 0))
    sun_position := some (clampQ (-90) 180 (data.sun_position.getD 0))
    manual_setpoint := some (clampQ (-90) 180 (data.manual_setpoint.getD 0))
    mpu := some { mpu0 with lens_angle := some (clampQ (-90) 180 (mpu0.lens_angle.getD 0)) }
    pid_values := some (data.pid_values.getD defaultPid)
    rtc_day := some (data.rtc_day.getD now.day)
    rtc_month := some (data.rtc_month.getD now.month)
    rtc_year := some (data.rtc_year.getD now.year)
    rtc_hour := some (data.rtc_hour.getD now.hour)
    rtc_minute := some (data.rtc_minute.getD now.minute)
    rtc_second := some (data.rtc_second.getD now.second) }

/-- `DataAggregator.calculate_derived_data` (`data_aggregator.py`
lines 167–206).  `dict.get(key, default)` is `Option.getD`. -/
def calculate_derived_data (data : SnapDict) : SnapDict :=
  let sun_pos : ℚ := data.sun_position.getD 0
  let lens_angle : ℚ := (data.mpu.getD { lens_angle := none }).lens_angle.getD 0
  let trackErr : ℚ := |sun_pos - lens_angle|
  let motor_raw : ℚ := data.motor.getD 0
  let motorPct : ℚ := pyRound 1 (motor_raw / 255 * 100)
  let motorDir : String :=
    if 1 < trackErr then
      if lens_angle < sun_pos then "CW" else "CCW"
    else "STOP"
  let mode : String := data.mode.getD "unknown"
  { data with
    tracking_error := some trackErr
    motor_percentage := some motorPct
    motor_direction := some motorDir
    tracking_enabled := some (mode == "auto" || mode == "presentation")
    manual_override := some (mode == "manual")
    safety_stop := some (mode == "halt" || decide (45 < trackErr)) }

/-- `DataAggregator.process_esp_data` (`data_aggregator.py` lines 97–123):
stamp `processed_timestamp`, validate/normalize, compute derived data.  The
snapshot/history updates on the aggregator state are modelled separately by
`add_to_history`. -/
def process_esp_data (now : Now) (raw : SnapDict) : SnapDict :=
  calculate_derived_data
    (validate_and_normalize_data now { raw with processed_timestamp := some now.ts })

/-- `DataAggregator.max_history_size` (`data_aggregator.py` line 23). -/
def max_history_size : ℕ := 1000

/-- `DataAggregator.add_to_history` (`data_aggregator.py` lines 208–214):
append, then `pop(0)` once the length exceeds the bound. -/
def add_to_history (maxSize : ℕ) (hist : List SnapDict) (data : SnapDict) :
    List SnapDict :=
  let h2 := hist ++ [data]
  if maxSize < h2.length then h2.tail else h2

/-- Result dictionary of `DataAggregator.get_statistics` in the non-empty case. -/
structure Stats where
  average_tracking_error : ℚ
  maximum_tracking_error : ℚ
  average_motor_power : ℚ
  mode_distribution : List (String × ℕ)
  data_points_collected : ℕ
  collection_running : Bool
  deriving DecidableEq, Repr

/-- One step of the mode-count accumulation of `get_statistics`
(`mode_counts[mode] = mode_counts.get(mode, 0) + 1`), on an association list
kept in first-occurrence order like a Python dict. -/
def bumpMode (counts : List (String × ℕ)) (m : String) : List (String × ℕ) :=
  if counts.any (fun pr => pr.1 == m) then
    counts.map (fun pr => if pr.1 == m then (pr.1, pr.2 + 1) else pr)
  else counts ++ [(m, 1)]

/-- Python's `max(xs)` on a non-empty list of rationals; the empty case is the
`if tracking_errors else 0` guard of the source. -/
def listMaxQ : List ℚ → ℚ
  | [] => 0
  | x :: xs => xs.foldl max x

/-- `DataAggregator.get_statistics` (`data_aggregator.py` lines 239–268).  The
empty dictionary returned for an empty history is `none`; otherwise the six
statistics keys are computed over the last 100 history entries. -/
def get_statistics (is_running : Bool) (hist : List SnapDict) : Option Stats :=
  if hist = [] then none
  else
    let recent := hist.drop (hist.length - 100)
    let tracking_errors := recent.map (fun dd => dd.tracking_error.getD 0)
    let avg_error : ℚ :=
      if tracking_errors = [] then 0
      else tracking_errors.sum / (tracking_errors.length : ℚ)
    let max_error : ℚ := listMaxQ tracking_errors
    let motor_powers := recent.map (fun dd => dd.motor_percentage.getD 0)
    let avg_motor_power : ℚ :=
      if motor_powers = [] then 0
      else motor_powers.sum / (motor_powers.length : ℚ)
    let modes := recent.map (fun dd => dd.mode.getD "unknown")
    some
      { average_tracking_error := pyRound 2 avg_error
        maximum_tracking_error := pyRound 2 max_error
        average_motor_power := pyRound 1 avg_motor_power
        mode_distribution := modes.foldl bumpMode []
        data_points_collected := hist.length
        collection_running := is_running }

/-- The frame dictionary with no keys at all: Python's `{}`. -/
def emptySnap : SnapDict := {}

/-! ## `services/esp_communicator.py` -/

/-- Mutable state of `ESPCommunicator` that the verified claims depend on.
`websocket` is `true` when `self.websocket` holds a socket handle (is not
`None`).  The `connection_status` dictionary, the debounce timers and the HTTP
client objects are not modelled: no claim below depends on them. -/
structure ESPCommunicator where
  esp_ip : String
  http_port : ℕ
  ws_port : ℕ
  device_id : Option String
  base_url : String
  ws_url : String
  is_websocket_connected : Bool
  websocket : Bool
  last_data : SnapDict
  deriving DecidableEq, Repr

/-- The `f"http://{ip}:{port}"` format of `esp_communicator.py`. -/
def mkBaseUrl (ip : String) (port : ℕ) : String :=
  "http://" ++ ip ++ ":" ++ toString port

/-- The `f"ws://{ip}:{port}"` format of `esp_communicator.py`. -/
def mkWsUrl (ip : String) (port : ℕ) : String :=
  "ws://" ++ ip ++ ":" ++ toString port

/-- `ESPCommunicator.__init__` (lines 18–35) restricted to the modelled
fields. -/
def ESPCommunicator.init (esp_ip : String) (http_port ws_port : ℕ)
    (device_id : Option String) : ESPCommunicator :=
  { esp_ip := esp_ip
    http_port := http_port
    ws_port := ws_port
    device_id := device_id
    base_url := mkBaseUrl esp_ip http_port
    ws_url := mkWsUrl esp_ip ws_port
    is_websocket_connected := false
    websocket := false
    last_data := emptySnap }

/-- Outcome of one `websocket.recv` the environment can produce: a decoded JSON
frame, or any failure (timeout, closed socket, bad JSON — all caught by the
`except` clause of `get_last_data`). -/
inductive RecvOutcome where
  | frame (f : SnapDict)
  | failure
  deriving DecidableEq, Repr

/-- `ESPCommunicator.connect_websocket` (lines 111–121); `ok` is whether
`websockets.connect` succeeds. -/
def ESPCommunicator.connect_websocket (s : ESPCommunicator) (ok : Bool) :
    ESPCommunicator × Bool :=
  if ok then
    ({ s with websocket := true, is_websocket_connected := true }, true)
  else
    ({ s with is_websocket_connected := false }, false)

/-- `ESPCommunicator.disconnect_websocket` (lines 123–133). -/
def ESPCommunicator.disconnect_websocket (s : ESPCommunicator) : ESPCommunicator :=
  { s with is_websocket_connected := false, websocket := false }

/-- True exactly when `get_last_data` enters its `websocket.recv` branch, i.e.
performs I/O on the device channel (lines 196–201). -/
def ESPCommunicator.get_last_data_touches_channel (s : ESPCommunicator) : Bool :=
  s.is_websocket_connected && s.websocket

/-- `ESPCommunicator.get_last_data` (lines 193–206).  When the push channel is
connected it attempts a 1-second `recv` (the `recv` outcome is a parameter),
caches a successfully decoded frame, and swallows any failure; it then returns
`self.last_data.copy() if self.last_data else {}`. -/
def ESPCommunicator.get_last_data (s : ESPCommunicator) (recv : RecvOutcome) :
    ESPCommunicator × SnapDict :=
  let s1 :=
    if s.is_websocket_connected && s.websocket then
      match recv with
      | .frame f => { s with last_data := f }
      | .failure => s
    else s
  (s1, if s1.last_data = emptySnap then emptySnap else s1.last_data)

/-- `ESPCommunicator.update_esp_config` (the `async` definition, lines
208–235).  `checkOk` is the result of `check_connection` against the new
address and `wsOk` the result of the subsequent `connect_websocket`; both are
environment outcomes.  On either failure the address and the URLs are rebuilt
from the old IP and the call returns `False`. -/
def ESPCommunicator.update_esp_config (s : ESPCommunicator) (new_ip : String)
    (device_id : Option String) (new_http_port new_ws_port : ℕ)
    (checkOk wsOk : Bool) : ESPCommunicator × Bool :=
  let old_ip := s.esp_ip
  let s1 : ESPCommunicator :=
    { s with
      esp_ip := new_ip
      device_id := match device_id with | some dd => some dd | none => s.device_id
      http_port := new_http_port
      ws_port := new_ws_port
      base_url := mkBaseUrl new_ip new_http_port
      ws_url := mkWsUrl new_ip new_ws_port }
  let s2 := if s1.is_websocket_connected then s1.disconnect_websocket else s1
  let revertFn : ESPCommunicator → ESPCommunicator × Bool := fun sX =>
    ({ sX with
        esp_ip := old_ip
        base_url := mkBaseUrl old_ip sX.http_port
        ws_url := mkWsUrl old_ip sX.ws_port }, false)
  if checkOk then
    let pr := s2.connect_websocket wsOk
    if pr.2 then (pr.1, true) else revertFn pr.1
  else revertFn s2

/-- `ESPCommunicator.max_reconnect_attempts` (line 33). -/
def max_reconnect_attempts : ℕ := 5

/-- Abstract state of the `start_websocket_listener` loop (lines 161–191):
either still running with the current `reconnect_attempts` counter and a
pending connection attempt, or exited after exhausting the attempts. -/
inductive ListenerState where
  | running (attempts : ℕ)
  | failed
  deriving DecidableEq, Repr

/-- One connection-attempt outcome consumed by the listener loop.  `true` is a
successful `connect_websocket` — the counter resets to 0 (line 175) and the
inner receive loop runs until the socket drops, after which the outer loop
attempts again with the reset counter.  `false` is a failed attempt or a
listener exception — the counter is incremented (lines 170, 188) and the
`while reconnect_attempts < self.max_reconnect_attempts` guard decides whether
the loop continues.  The `failed` state makes no attempt at all: the coroutine
has returned (line 191). -/
def listener_step (maxA : ℕ) : ListenerState → Bool → ListenerState
  | .running _, true => .running 0
  | .running a, false => if a + 1 < maxA then .running (a + 1) else .failed
  | .failed, _ => .failed

/-- The listener loop consuming a finite stream of attempt outcomes. -/
def listener_run (maxA : ℕ) (s : ListenerState) (outcomes : List Bool) :
    ListenerState :=
  outcomes.foldl (listener_step maxA) s

/-- How many connection attempts the listener makes while consuming the
outcome stream; in `failed` it makes none. -/
def listener_attempts (maxA : ℕ) : ListenerState → List Bool → ℕ
  | _, [] => 0
  | .failed, _ :: _ => 0
  | .running a, o :: os =>
    1 + listener_attempts maxA (listener_step maxA (.running a) o) os

/-! ## `services/websocket_manager.py` -/

/-- An observer channel handle; observers are opaque, so a channel is just an
identifier. -/
abbrev Channel := ℕ

/-- The registry state of `WSConnectionManager` (lines 15–17). -/
structure WSConnectionManager where
  active_connections : List Channel
  connection_count : ℕ
  deriving DecidableEq, Repr

/-- `WSConnectionManager.connect` (lines 19–27); `accepted` is whether
`websocket.accept()` succeeds.  On success the channel is appended to the
registry unconditionally — there is no membership check. -/
def WSConnectionManager.connect (s : WSConnectionManager) (accepted : Bool)
    (w : Channel) : WSConnectionManager :=
  if accepted then
    { active_connections := s.active_connections ++ [w]
      connection_count := s.connection_count + 1 }
  else s

/-- `WSConnectionManager.disconnect` (lines 29–36): remove the first matching
entry if the channel is registered, otherwise do nothing; never raises. -/
def WSConnectionManager.disconnect (s : WSConnectionManager) (w : Channel) :
    WSConnectionManager :=
  { s with active_connections := s.active_connections.erase w }

/-- `WSConnectionManager.broadcast_json` (lines 71–86).  `fails` says which
channels raise on `send_json` (a closed channel fails).  The loop sends to
every registered channel, collecting the failing ones, and only after the pass
disconnects them; each `send_json` failure is caught inside the loop, so the
function is total.  Returns the new registry state and the list of channels the
message was delivered to, in pass order. -/
def WSConnectionManager.broadcast_json (fails : Channel → Bool)
    (s : WSConnectionManager) : WSConnectionManager × List Channel :=
  if s.active_connections = [] then (s, [])
  else
    let delivered := s.active_connections.filter (fun c => !fails c)
    let disconnected := s.active_connections.filter (fun c => fails c)
    (disconnected.foldl (fun st c => st.disconnect c) s, delivered)

/-! ## Predicates used to state the specification's claims -/

/-- All eight documented `pid_values` entries are present. -/
def pidAllSome (pv : PidDict) : Bool :=
  pv.kp.isSome && pv.ki.isSome && pv.kd.isSome && pv.p.isSome &&
  pv.i.isSome && pv.d.isSome && pv.error.isSome && pv.output.isSome

/-- Every required snapshot field is populated: `mode`, `esp_clock`, the six
RTC fields, `motor`, `sun_position`, `manual_setpoint`, `mpu.lens_angle`, all
eight `pid_values` entries, and the seven derived/stamp fields. -/
def fieldsPopulated (dd : SnapDict) : Bool :=
  dd.mode.isSome && dd.esp_clock.isSome &&
  dd.rtc_day.isSome && dd.rtc_month.isSome && dd.rtc_year.isSome &&
  dd.rtc_hour.isSome && dd.rtc_minute.isSome && dd.rtc_second.isSome &&
  dd.motor.isSome && dd.sun_position.isSome && dd.manual_setpoint.isSome &&
  (dd.mpu.bind MpuDict.lens_angle).isSome &&
  ((dd.pid_values.map pidAllSome).getD false) &&
  dd.tracking_error.isSome && dd.motor_percentage.isSome &&
  dd.motor_direction.isSome && dd.tracking_enabled.isSome &&
  dd.manual_override.isSome && dd.safety_stop.isSome &&
  dd.processed_timestamp.isSome

/-- A raw frame either omits `pid_values` entirely (the aggregator then
substitutes the complete default dictionary) or provides all eight entries. -/
def rawPidOk (raw : SnapDict) : Bool :=
  (raw.pid_values.map pidAllSome).getD true

/-- A fixed wall-clock reading used for the concrete evaluations below. -/
def now0 : Now := ⟨1700000000, 15, 6, 2025, 12, 30, 45⟩

/-! ## Helper lemmas about the processing pipeline -/

theorem clampQ_bounds (lo hi x : ℚ) (h : lo ≤ hi) :
    lo ≤ clampQ lo hi x ∧ clampQ lo hi x ≤ hi :=
  ⟨le_max_left lo _, max_le h (min_le_left hi x)⟩

theorem process_sun_position (now : Now) (raw : SnapDict) :
    (process_esp_data now raw).sun_position =
      some (clampQ (-90) 180 (raw.sun_position.getD 0)) := rfl

theorem process_manual_setpoint (now : Now) (raw : SnapDict) :
    (process_esp_data now raw).manual_setpoint =
      some (clampQ (-90) 180 (raw.manual_setpoint.getD 0)) := rfl

theorem process_motor (now : Now) (raw : SnapDict) :
    (process_esp_data now raw).motor =
      some (clampQ 0 255 (raw.motor.getD 0)) := rfl

theorem process_pid_values (now : Now) (raw : SnapDict) :
    (process_esp_data now raw).pid_values =
      some (raw.pid_values.getD defaultPid) := rfl

theorem process_lens_clamped (now : Now) (raw : SnapDict) :
    ∃ e : ℚ, (process_esp_data now raw).mpu.bind MpuDict.lens_angle =
      some (clampQ (-90) 180 e) := ⟨_, rfl⟩

/-- C1 counterexample: the aggregator clamps `sun_position` to the range
[-90, 180], not [-90, 90]; an input of 200 becomes 180, not 90. -/
theorem claim_C1_counterexample :
    (process_esp_data now0 { sun_position := some 200 }).sun_position = some 180 ∧
    (process_esp_data now0 { sun_position := some 200 }).sun_position ≠ some 90 := by
  constructor
  · rfl
  · decide

/-- C1 (amended): for every raw frame, the snapshot's `sun_position`,
`manual_setpoint` and `mpu.lens_angle` are clamped to the range [-90, 180]
(not ±90), and the motor raw value to [0, 255]; an input `sun_position` of 200
becomes 180, and -150 becomes -90. -/
theorem claim_C1_amended (now : Now) (raw : SnapDict) :
    (-90 ≤ ((process_esp_data now raw).sun_position.getD 0) ∧
      ((process_esp_data now raw).sun_position.getD 0) ≤ 180) ∧
    (-90 ≤ ((process_esp_data now raw).manual_setpoint.getD 0) ∧
      ((process_esp_data now raw).manual_setpoint.getD 0) ≤ 180) ∧
    (-90 ≤ (((process_esp_data now raw).mpu.bind MpuDict.lens_angle).getD 0) ∧
      (((process_esp_data now raw).mpu.bind MpuDict.lens_angle).getD 0) ≤ 180) ∧
    (0 ≤ ((process_esp_data now raw).motor.getD 0) ∧
      ((process_esp_data now raw).motor.getD 0) ≤ 255) ∧
    (process_esp_data now0 { sun_position := some 200 }).sun_position = some 180 ∧
    (process_esp_data now0 { sun_position := some (-150) }).sun_position = some (-90) := by
  refine ⟨?_, ?_, ?_, ?_, rfl, rfl⟩
  · rw [process_sun_position]
    exact clampQ_bounds (-90) 180 _ (by norm_num)
  · rw [process_manual_setpoint]
    exact clampQ_bounds (-90) 180 _ (by norm_num)
  · obtain ⟨e, he⟩ := process_lens_clamped now raw
    rw [he]
    exact clampQ_bounds (-90) 180 e (by norm_num)
  · rw [process_motor]
    exact clampQ_bounds 0 255 _ (by norm_num)

theorem process_pid_populated (now : Now) (raw : SnapDict) :
    ((process_esp_data now raw).pid_values.map pidAllSome).getD false =
      pidAllSome (raw.pid_values.getD defaultPid) := rfl

theorem fieldsPopulated_process (now : Now) (raw : SnapDict) :
    fieldsPopulated (process_esp_data now raw) =
      pidAllSome (raw.pid_values.getD defaultPid) := by
  show (true && true && true && true && true && true && true && true &&
    true && true && true && true &&
    pidAllSome (raw.pid_values.getD defaultPid) &&
    true && true && true && true && true && true && true) = _
  simp

/-- C2 counterexample: a raw frame that carries a `pid_values` dictionary with
only `kp` present produces a snapshot whose `pid_values` still lacks the other
seven entries — `validate_and_normalize_data` substitutes the default PID
dictionary only when the `pid_values` key is absent entirely. -/
theorem claim_C2_counterexample :
    fieldsPopulated
      (process_esp_data now0
        { pid_values := some
            { kp := some 1, ki := none, kd := none, p := none, i := none,
              d := none, error := none, output := none } }) = false := by decide

/-- C2 (amended): for every raw frame, the snapshot produced by
`process_esp_data` has every required field populated — `mode`, `esp_clock`,
the six RTC fields, `motor`, `sun_position`, `manual_setpoint`,
`mpu.lens_angle`, the derived fields and `processed_timestamp` — except that
the eight `pid_values` entries are all populated exactly when the raw frame
either omits `pid_values` entirely (defaults substituted wholesale) or already
carries all eight entries; a present-but-partial `pid_values` is passed
through with its missing entries still missing. -/
theorem claim_C2_amended (now : Now) (raw : SnapDict) :
    fieldsPopulated (process_esp_data now raw) = rawPidOk raw := by
  rw [fieldsPopulated_process]
  cases hp : raw.pid_values with
  | none => simp [rawPidOk, hp, defaultPid, pidAllSome]
  | some pv => simp [rawPidOk, hp]

/-- C6: for every processed frame, `tracking_error` is the absolute difference
of the snapshot's (clamped) sun position and lens angle, and `motor_direction`
is `CW` when the error exceeds 1 and the sun position is greater than the lens
angle, `CCW` when the error exceeds 1 otherwise, and `STOP` when the error is
at most 1.  Concretely: sun 50 / lens 48 gives error 2 and `CW`; sun 40 /
lens 50 gives error 10 and `CCW`; sun 50 / lens 50.5 gives error 0.5 and
`STOP`. -/
theorem claim_C6 (now : Now) (raw : SnapDict) :
    ((process_esp_data now raw).tracking_error =
      some |((process_esp_data now raw).sun_position.getD 0) -
        (((process_esp_data now raw).mpu.bind MpuDict.lens_angle).getD 0)| ∧
    (process_esp_data now raw).motor_direction =
      some (if 1 < |((process_esp_data now raw).sun_position.getD 0) -
          (((process_esp_data now raw).mpu.bind MpuDict.lens_angle).getD 0)| then
        if (((process_esp_data now raw).mpu.bind MpuDict.lens_angle).getD 0) <
            ((process_esp_data now raw).sun_position.getD 0) then "CW" else "CCW"
      else "STOP")) ∧
    (process_esp_data now0 { sun_position := some 50, mpu := some ⟨some 48⟩ }).tracking_error
      = some 2 ∧
    (process_esp_data now0 { sun_position := some 50, mpu := some ⟨some 48⟩ }).motor_direction
      = some "CW" ∧
    (process_esp_data now0 { sun_position := some 40, mpu := some ⟨some 50⟩ }).tracking_error
      = some 10 ∧
    (process_esp_data now0 { sun_position := some 40, mpu := some ⟨some 50⟩ }).motor_direction
      = some "CCW" ∧
    (process_esp_data now0 { sun_position := some 50, mpu := some ⟨some (101/2)⟩ }).tracking_error
      = some (1/2) ∧
    (process_esp_data now0 { sun_position := some 50, mpu := some ⟨some (101/2)⟩ }).motor_direction
      = some "STOP" := by
  refine ⟨⟨rfl, rfl⟩, ?_, ?_, ?_, ?_, ?_, ?_⟩ <;>
    norm_num [process_esp_data, validate_and_normalize_data,
      calculate_derived_data, clampQ, now0, abs_of_nonneg]

theorem foldl_add_to_history (N : ℕ) (xs : List SnapDict) :
    ∀ h : List SnapDict, h.length ≤ N →
      List.foldl (add_to_history N) h xs =
        (h ++ xs).drop ((h.length + xs.length) - N) := by
  induction xs with
  | nil =>
    intro h hle
    simp [Nat.sub_eq_zero_of_le hle]
  | cons x xs ih =>
    intro h hle
    rw [List.foldl_cons]
    have hlen1 : (h ++ [x]).length = h.length + 1 := by
      simp only [List.length_append, List.length_cons, List.length_nil]
    rcases Nat.lt_or_ge h.length N with hlt | hge
    · have hstep : add_to_history N h x = h ++ [x] := by
        unfold add_to_history
        rw [if_neg (by omega)]
      rw [hstep, ih (h ++ [x]) (by omega)]
      rw [show (h ++ [x]) ++ xs = h ++ x :: xs by simp]
      rw [hlen1]
      congr 1
      simp only [List.length_cons]
      omega
    · have heq : h.length = N := le_antisymm hle hge
      have hstep : add_to_history N h x = (h ++ [x]).drop 1 := by
        unfold add_to_history
        rw [if_pos (by omega), List.drop_one]
      have hle2 : ((h ++ [x]).drop 1).length ≤ N := by
        rw [List.length_drop, hlen1]
        omega
      rw [hstep, ih ((h ++ [x]).drop 1) hle2]
      rw [show ((h ++ [x]).drop 1 ++ xs) = ((h ++ [x]) ++ xs).drop 1 from
        (List.drop_append_of_le_length (by omega)).symm]
      rw [List.drop_drop]
      rw [show (h ++ [x]) ++ xs = h ++ x :: xs by simp]
      rw [List.length_drop, hlen1]
      congr 1
      simp only [List.length_cons]
      omega

/-- C7: the history buffer is a FIFO bounded at 1000.  Starting from an empty
history, after `1000 + k` appends (`k > 0`) through `add_to_history` the
retained entries are exactly the input sequence with its `k` oldest entries
dropped — the 1000 most recent appends in append order — and the length is
exactly 1000. -/
theorem claim_C7 (xs : List SnapDict) (k : ℕ) (hk : 0 < k)
    (hlen : xs.length = max_history_size + k) :
    List.foldl (add_to_history max_history_size) [] xs = xs.drop k ∧
    (List.foldl (add_to_history max_history_size) [] xs).length =
      max_history_size := by
  have h := foldl_add_to_history max_history_size xs [] (by simp)
  simp only [List.nil_append, List.length_nil, Nat.zero_add] at h
  rw [hlen] at h
  have hidx : max_history_size + k - max_history_size = k := by omega
  rw [hidx] at h
  refine ⟨h, ?_⟩
  rw [h, List.length_drop, hlen]
  omega

theorem claim_C7_witness :
    List.foldl (add_to_history max_history_size) []
        (List.replicate 1001 (default : SnapDict)) =
      (List.replicate 1001 (default : SnapDict)).drop 1 ∧
    (List.foldl (add_to_history max_history_size) []
        (List.replicate 1001 (default : SnapDict))).length = max_history_size :=
  claim_C7 (List.replicate 1001 default) 1 (by norm_num)
    (by rw [List.length_replicate]; norm_num [max_history_size])

/-- C4 counterexample: `connect` performs no membership check, so connecting a
channel that is already registered leaves the registry with two entries for
it, not one. -/
theorem claim_C4_counterexample :
    ((WSConnectionManager.connect ⟨[7], 1⟩ true 7).active_connections.count 7 = 2) ∧
    (WSConnectionManager.connect ⟨[7], 1⟩ true 7).active_connections ≠ [7] := by
  decide

/-- C4 (amended): `disconnect` is idempotent — disconnecting a channel that is
not registered leaves the registry unchanged and raises no error, and
disconnecting a registered channel removes its first entry — but `connect` is
not: an accepted connection is appended to the registry unconditionally, so
connecting an already-registered channel produces a duplicate entry. -/
theorem claim_C4_amended (s : WSConnectionManager) (w : Channel) :
    (w ∉ s.active_connections → s.disconnect w = s) ∧
    (s.disconnect w).active_connections = s.active_connections.erase w ∧
    (s.connect true w).active_connections = s.active_connections ++ [w] := by
  refine ⟨fun hw => ?_, rfl, rfl⟩
  simp [WSConnectionManager.disconnect, List.erase_of_not_mem hw]

theorem claim_C4_witness :
    WSConnectionManager.disconnect ⟨[1, 2], 2⟩ 3 = ⟨[1, 2], 2⟩ :=
  (claim_C4_amended ⟨[1, 2], 2⟩ 3).1 (by decide)

theorem foldl_disconnect_active (dis : List Channel) :
    ∀ s : WSConnectionManager,
      (dis.foldl (fun st c => st.disconnect c) s).active_connections =
        dis.foldl List.erase s.active_connections := by
  induction dis with
  | nil => intro s; rfl
  | cons c cs ih =>
    intro s
    rw [List.foldl_cons, List.foldl_cons, ih]
    rfl

theorem foldl_erase_not_mem_cons (batch : List Channel) :
    ∀ (x : Channel) (l : List Channel), x ∉ batch →
      batch.foldl List.erase (x :: l) = x :: batch.foldl List.erase l := by
  induction batch with
  | nil => intro x l _; rfl
  | cons b bs ih =>
    intro x l hx
    rw [List.foldl_cons, List.foldl_cons]
    have hxb : ¬(x == b) = true := by
      simp only [beq_iff_eq]
      intro hxe
      exact hx (hxe ▸ List.mem_cons_self b bs)
    rw [List.erase_cons_tail hxb]
    exact ih x (l.erase b) (fun hm => hx (List.mem_cons_of_mem b hm))

theorem foldl_erase_filter (p : Channel → Bool) (l : List Channel) :
    (l.filter p).foldl List.erase l = l.filter (fun x => !p x) := by
  induction l with
  | nil => rfl
  | cons x xs ih =>
    by_cases hp : p x
    · rw [List.filter_cons_of_pos hp, List.foldl_cons, List.erase_cons_head,
        List.filter_cons_of_neg (by simp [hp]), ih]
    · have hxnot : x ∉ xs.filter p := by
        intro hm
        exact hp (List.of_mem_filter hm)
      rw [List.filter_cons_of_neg (by simpa using hp),
        foldl_erase_not_mem_cons (xs.filter p) x xs hxnot, ih,
        List.filter_cons_of_pos (by simp [hp])]

theorem broadcast_json_spec (fails : Channel → Bool) (s : WSConnectionManager) :
    (WSConnectionManager.broadcast_json fails s).1.active_connections =
      s.active_connections.filter (fun c => !fails c) ∧
    (WSConnectionManager.broadcast_json fails s).2 =
      s.active_connections.filter (fun c => !fails c) := by
  unfold WSConnectionManager.broadcast_json
  by_cases h : s.active_connections = []
  · simp [h]
  · rw [if_neg h]
    exact ⟨by rw [foldl_disconnect_active, foldl_erase_filter], rfl⟩

/-- C9: broadcasting a message over a registry containing a channel whose send
fails never raises to the caller (`broadcast_json` is a total function: each
send failure is caught inside the loop), the failing channel is no longer
registered after the pass, and every registered channel whose send does not
fail receives the message in that same pass. -/
theorem claim_C9 (fails : Channel → Bool) (s : WSConnectionManager)
    (w : Channel) (_hw : w ∈ s.active_connections) (hf : fails w = true) :
    w ∉ (WSConnectionManager.broadcast_json fails s).1.active_connections ∧
    ∀ c ∈ s.active_connections, fails c = false →
      c ∈ (WSConnectionManager.broadcast_json fails s).2 := by
  obtain ⟨h1, h2⟩ := broadcast_json_spec fails s
  constructor
  · rw [h1]
    simp only [List.mem_filter]
    rintro ⟨-, hq⟩
    rw [hf] at hq
    exact Bool.false_ne_true hq
  · intro c hc hcf
    rw [h2]
    exact List.mem_filter.mpr ⟨hc, by rw [hcf]; rfl⟩

theorem claim_C9_witness :
    7 ∉ (WSConnectionManager.broadcast_json (fun c => c == 7)
      ⟨[5, 7, 9], 3⟩).1.active_connections :=
  (claim_C9 (fun c => c == 7) ⟨[5, 7, 9], 3⟩ 7 (by decide) (by decide)).1

/-- C5 counterexample: a failed `update_esp_config` reverts the IP address but
keeps the newly supplied HTTP port, push-channel port and device id, and
rebuilds the URLs from the old IP with the new ports — so the endpoint
identity is not what it was before the call. -/
theorem claim_C5_counterexample :
    (((ESPCommunicator.init "192.168.0.101" 80 81 none).update_esp_config
        "10.0.0.2" (some "dev2") 8080 8081 false false).1.esp_ip =
      (ESPCommunicator.init "192.168.0.101" 80 81 none).esp_ip) ∧
    (((ESPCommunicator.init "192.168.0.101" 80 81 none).update_esp_config
        "10.0.0.2" (some "dev2") 8080 8081 false false).1.http_port ≠
      (ESPCommunicator.init "192.168.0.101" 80 81 none).http_port) ∧
    (((ESPCommunicator.init "192.168.0.101" 80 81 none).update_esp_config
        "10.0.0.2" (some "dev2") 8080 8081 false false).1.device_id ≠
      (ESPCommunicator.init "192.168.0.101" 80 81 none).device_id) ∧
    (((ESPCommunicator.init "192.168.0.101" 80 81 none).update_esp_config
        "10.0.0.2" (some "dev2") 8080 8081 false false).1.base_url ≠
      (ESPCommunicator.init "192.168.0.101" 80 81 none).base_url) ∧
    (((ESPCommunicator.init "192.168.0.101" 80 81 none).update_esp_config
        "10.0.0.2" (some "dev2") 8080 8081 false false).2 = false) := by
  refine ⟨rfl, ?_, ?_, ?_, rfl⟩ <;> decide

/-- C5 (amended): when registering a new device address fails — the liveness
probe or the push-channel connection against the new address does not succeed
— `update_esp_config` returns failure and reverts only the IP address, while
the HTTP port, the push-channel port and (when supplied) the device id keep
their new values, and the URLs are rebuilt from the old IP combined with the
new ports. -/
theorem claim_C5_amended (s : ESPCommunicator) (new_ip : String)
    (did : Option String) (nhp nwp : ℕ) (checkOk wsOk : Bool)
    (hfail : (checkOk && wsOk) = false) :
    (s.update_esp_config new_ip did nhp nwp checkOk wsOk).2 = false ∧
    (s.update_esp_config new_ip did nhp nwp checkOk wsOk).1.esp_ip = s.esp_ip ∧
    (s.update_esp_config new_ip did nhp nwp checkOk wsOk).1.http_port = nhp ∧
    (s.update_esp_config new_ip did nhp nwp checkOk wsOk).1.ws_port = nwp ∧
    (s.update_esp_config new_ip did nhp nwp checkOk wsOk).1.base_url =
      mkBaseUrl s.esp_ip nhp ∧
    (s.update_esp_config new_ip did nhp nwp checkOk wsOk).1.ws_url =
      mkWsUrl s.esp_ip nwp ∧
    (s.update_esp_config new_ip did nhp nwp checkOk wsOk).1.device_id =
      (match did with | some dd => some dd | none => s.device_id) := by
  cases checkOk with
  | false =>
    cases hb : s.is_websocket_connected <;>
      simp [ESPCommunicator.update_esp_config,
        ESPCommunicator.disconnect_websocket, hb]
  | true =>
    cases wsOk with
    | false =>
      cases hb : s.is_websocket_connected <;>
        simp [ESPCommunicator.update_esp_config,
          ESPCommunicator.connect_websocket,
          ESPCommunicator.disconnect_websocket, hb]
    | true => simp at hfail

theorem claim_C5_witness :
    ((ESPCommunicator.init "a" 80 81 none).update_esp_config
      "b" none 90 91 false false).2 = false :=
  (claim_C5_amended (ESPCommunicator.init "a" 80 81 none)
    "b" none 90 91 false false (by decide)).1

/-- C3: the claim states that `get_last_data` never performs I/O on the device
channel and leaves all connection state unchanged.  The code contradicts this
(and the design notes of its own specification acknowledge the pattern): when
the push channel is connected, `get_last_data` enters a `websocket.recv`
branch — I/O on the device channel — and a received frame overwrites the
cached `last_data`, so the call returns the fresh frame rather than the cached
one and mutates the communicator state. -/
theorem claim_C3_code_bug :
    (ESPCommunicator.get_last_data_touches_channel
      { ESPCommunicator.init "a" 80 81 none with
          is_websocket_connected := true, websocket := true,
          last_data := { mode := some "auto" } } = true) ∧
    ((ESPCommunicator.get_last_data
      { ESPCommunicator.init "a" 80 81 none with
          is_websocket_connected := true, websocket := true,
          last_data := { mode := some "auto" } }
      (.frame { mode := some "manual" })).1.last_data ≠
        ({ mode := some "auto" } : SnapDict)) ∧
    ((ESPCommunicator.get_last_data
      { ESPCommunicator.init "a" 80 81 none with
          is_websocket_connected := true, websocket := true,
          last_data := { mode := some "auto" } }
      (.frame { mode := some "manual" })).2 =
        ({ mode := some "manual" } : SnapDict)) := by
  refine ⟨rfl, ?_, by decide⟩
  decide

/-- C8: once the listener has exhausted `max_reconnect_attempts` (= 5)
consecutive failed connection attempts it reaches the `failed` state (the
coroutine returns); `failed` is absorbing — no stream of further events makes
the listener leave it or perform another connection attempt — and a
communicator whose push channel is down performs no channel I/O from
`get_last_data` either.  Only an explicit re-registration starts a fresh
listener in state `running 0`. -/
theorem claim_C8 :
    listener_run max_reconnect_attempts (.running 0)
      (List.replicate max_reconnect_attempts false) = .failed ∧
    (∀ outcomes : List Bool,
      listener_run max_reconnect_attempts .failed outcomes = .failed) ∧
    (∀ outcomes : List Bool,
      listener_attempts max_reconnect_attempts .failed outcomes = 0) ∧
    (∀ (s : ESPCommunicator) (recv : RecvOutcome),
      s.is_websocket_connected = false →
        s.get_last_data_touches_channel = false ∧ (s.get_last_data recv).1 = s) := by
  refine ⟨by decide, ?_, ?_, ?_⟩
  · intro outcomes
    induction outcomes with
    | nil => rfl
    | cons o os ih => exact ih
  · intro outcomes
    cases outcomes with
    | nil => rfl
    | cons o os => rfl
  · intro s recv h
    constructor
    · simp [ESPCommunicator.get_last_data_touches_channel, h]
    · simp [ESPCommunicator.get_last_data, h]

theorem claim_C8_witness :
    ((ESPCommunicator.init "a" 80 81 none).get_last_data .failure).1 =
      ESPCommunicator.init "a" 80 81 none :=
  (claim_C8.2.2.2 (ESPCommunicator.init "a" 80 81 none) .failure rfl).2

/-- C10: with an empty history `get_statistics` returns the empty dictionary
(modelled as `none` — no statistics field is present at all); whenever at
least one snapshot is in the history it returns the full documented shape,
with `data_points_collected` the total history length and the running flag
passed through. -/
theorem claim_C10 (r : Bool) :
    get_statistics r [] = none ∧
    ∀ hist : List SnapDict, hist ≠ [] →
      (get_statistics r hist).isSome = true ∧
      (get_statistics r hist).elim 0 Stats.data_points_collected = hist.length ∧
      (get_statistics r hist).elim (!r) Stats.collection_running = r := by
  constructor
  · rfl
  · intro hist hne
    unfold get_statistics
    rw [if_neg hne]
    exact ⟨rfl, rfl, rfl⟩

theorem claim_C10_witness :
    (get_statistics true [(default : SnapDict)]).isSome = true :=
  ((claim_C10 true).2 [(default : SnapDict)] (by simp)).1

end Rastreador
